import Mathlib

/-!
Verification of the computational core of `wrf_analysis_book`
(`src/_build/jupyter_execute/calculations.py`).

The script computes three families of quantities:
* a surface roughness length `z = (z2 - z1) / (exp(k*u2/ustar) - exp(k*u1/ustar))`;
* a sea-ice surface heat capacity `c = c0 + li*mu*s / t^2`, evaluated with an
  all-period, a winter and a summer mean temperature, then multiplied by the
  mean ice density;
* NaN-skipping means of time-indexed, possibly multi-column series
  (pandas `df.mean(axis = 1).mean()`, `series.mean()`, xarray `.mean()`).

We embed the tabular data as lists: a missing value (NaN) is `none`, a row of a
DataFrame is the list of its column entries, and a frame is a list of
timestamped rows.  Timestamps are modelled as integer day numbers (the script
slices by calendar-date labels, which pandas treats as inclusive on both ends
at day granularity).  All numeric values are rationals, except the roughness
length which needs the real exponential.
-/

namespace WrfCalc

/-- A single-column time-indexed series: (timestamp, value), `none` = NaN. -/
abbrev Series := List (ℤ × Option ℚ)

/-- One row of a multi-column frame: the entries across columns. -/
abbrev Row := List (Option ℚ)

/-- A multi-column time-indexed frame: list of timestamped rows. -/
abbrev Frame := List (ℤ × Row)

/-- NaN-skipping mean, the semantics of pandas/xarray `.mean()` with the
default `skipna = True`: drop the missing entries, and if nothing is left the
result is itself missing (NaN), otherwise sum/count. -/
def nanmean (xs : List (Option ℚ)) : Option ℚ :=
  let v := xs.filterMap id
  if v = [] then none else some (v.sum / (v.length : ℚ))

/-- `df.mean(axis = 1)`: per-timestamp mean across columns. -/
def meanAxis1 (f : Frame) : Series :=
  f.map (fun r => (r.1, nanmean r.2))

/-- `df.mean(axis = 1).mean()`: mean across columns, then across time.
This is the reduction used for `surft_df`, `salinity_df` and `density_df`. -/
def dfStat (f : Frame) : Option ℚ :=
  nanmean ((meanAxis1 f).map Prod.snd)

/-- `series.mean()`: the NaN-skipping mean of a single-column series
(used for `albedo_dataframe` and the single-column
`atmospheric_surface_temperature`). -/
def seriesStat (s : Series) : Option ℚ :=
  nanmean (s.map Prod.snd)

/-- xarray `.mean().values` on a one-dimensional variable (used for `u1`,
`u2`, `ustar`): the NaN-skipping grand mean. -/
def xrMean (xs : List (Option ℚ)) : Option ℚ :=
  nanmean xs

/-- `df[a : b]` label slicing on a single-column series: pandas keeps exactly
the samples whose timestamp lies between the two boundary labels, both
included. -/
def restrict (a b : ℤ) (s : Series) : Series :=
  s.filter (fun p => decide (a ≤ p.1 ∧ p.1 ≤ b))

/-- `df[a : b]` label slicing on a multi-column frame. -/
def restrictFrame (a b : ℤ) (f : Frame) : Frame :=
  f.filter (fun p => decide (a ≤ p.1 ∧ p.1 ≤ b))

/-- View a single-column series as a one-column frame. -/
def toFrame (s : Series) : Frame :=
  s.map (fun p => (p.1, [p.2]))

/-- The aggregation/summary reducer as the specification words it: "averaging
across all columns and then across all time steps, ignoring absent/undefined
samples".  Stated separately from the code-derived reductions so the two can
be compared. -/
def specReducer (f : Frame) : Option ℚ :=
  nanmean (f.map (fun r => nanmean r.2))

/-- `np.round(x, 2)` at integer precision: round half to even. -/
def roundHalfEven (q : ℚ) : ℤ :=
  let f := ⌊q⌋
  if q - f < 1 / 2 then f
  else if 1 / 2 < q - f then f + 1
  else if f % 2 = 0 then f else f + 1

/-- `np.round(x, 2)`: round to two decimal places, half to even. -/
def round2 (q : ℚ) : ℚ :=
  (roundHalfEven (q * 100) : ℚ) / 100

/-! ### Surface roughness length (code cell 2) -/

namespace Rough

/-- Height of the lower wind-speed measurement, `z1 = 2` m. -/
def z1 : ℝ := 2

/-- Height of the upper wind-speed measurement, `z2 = 10` m. -/
def z2 : ℝ := 10

/-- Von Karman constant, `k = 0.4`. -/
def k : ℝ := 0.4

/-- `term1 = (z2 - z1)`. -/
def term1 : ℝ := z2 - z1

/-- `term2 = np.exp((k * u2) / ustar)`. -/
noncomputable def term2 (u2 ustar : ℝ) : ℝ := Real.exp ((k * u2) / ustar)

/-- `term3 = np.exp((k * u1) / ustar)`. -/
noncomputable def term3 (u1 ustar : ℝ) : ℝ := Real.exp ((k * u1) / ustar)

/-- `z = term1 / (term2 - term3)`: the roughness length. -/
noncomputable def z (u1 u2 ustar : ℝ) : ℝ :=
  term1 / (term2 u2 ustar - term3 u1 ustar)

end Rough

/-! ### Surface heat capacity (code cells 15 and 22) -/

/-- Ocean freezing temperature constant, `mu = 0.054`. -/
def mu : ℚ := 0.054

/-- Heat capacity of fresh ice, `c0 = 2054`. -/
def c0 : ℚ := 2054

/-- Latent heat of fusion, `li = 3.340 * 10 ** 5`. -/
def li : ℚ := 3.340 * 10 ^ 5

/-- The heat-capacity formula `c0 + ((li * mu * s) / (t ** 2))` applied to a
salinity `s` and a temperature `t`. -/
def heatcap (s t : ℚ) : ℚ :=
  c0 + (li * mu * s) / (t ^ 2)

/-- Start of the winter window `2015-01-01`, as days since 2015-01-01. -/
def wintStart : ℤ := 0

/-- End of the winter window `2015-04-01`, as days since 2015-01-01. -/
def wintEnd : ℤ := 90

/-- Start of the summer window `2015-04-07`, as days since 2015-01-01. -/
def summStart : ℤ := 96

/-- End of the summer window `2015-06-21`, as days since 2015-01-01. -/
def summEnd : ℤ := 171

/-- `np.round(df.mean(), 2)` on the single-column
`atmospheric_surface_temperature` frame: the temperature value the script
feeds into the heat-capacity formula (code line
`t = np.round(atmospheric_surface_temperature.mean(), 2)`). -/
def tempUsed (atm : Series) : Option ℚ :=
  Option.map round2 (seriesStat atm)

/-- The heat-capacity formula lifted to possibly-missing inputs (a NaN input
propagates to a NaN result, as in pandas arithmetic). -/
def hcOpt (s t : Option ℚ) : Option ℚ :=
  Option.map₂ heatcap s t

/-- Code cell 15: compute `s` as the rounded dataframe mean of `salinity_df`,
`t`, `t_w`, `t_s` as the rounded means of `atmospheric_surface_temperature`
over the whole period, the winter window and the summer window, and return
`(c, c_w, c_s)` where each component is `c0 + ((li * mu * s) / (t ** 2))`
with the corresponding temperature. -/
def heatCapRun (sal : Frame) (atm : Series) : Option ℚ × Option ℚ × Option ℚ :=
  let s := Option.map round2 (dfStat sal)
  let t := tempUsed atm
  let t_w := tempUsed (restrict wintStart wintEnd atm)
  let t_s := tempUsed (restrict summStart summEnd atm)
  (hcOpt s t, hcOpt s t_w, hcOpt s t_s)

/-- Code cell 22: multiply each of the three per-mass heat capacities by
`density_df.mean(axis = 1).mean()` to obtain the volumetric heat
capacities. -/
def volRun (sal : Frame) (atm : Series) (den : Frame) :
    Option ℚ × Option ℚ × Option ℚ :=
  let p := heatCapRun sal atm
  let d := dfStat den
  (Option.map₂ (· * ·) p.1 d, Option.map₂ (· * ·) p.2.1 d,
    Option.map₂ (· * ·) p.2.2 d)

/-! ### Helper lemmas -/

theorem nanmean_singleton (o : Option ℚ) : nanmean [o] = o := by
  cases o with
  | none => rfl
  | some x =>
    simp only [nanmean, List.filterMap_cons, List.filterMap_nil, id_eq]
    rw [if_neg (List.cons_ne_nil _ _)]
    simp

theorem nanmean_perm {xs ys : List (Option ℚ)} (h : xs.Perm ys) :
    nanmean xs = nanmean ys := by
  have hv : (xs.filterMap id).Perm (ys.filterMap id) := h.filterMap id
  simp only [nanmean]
  by_cases hx : xs.filterMap id = []
  · have hy : ys.filterMap id = [] := by
      rw [hx] at hv
      exact hv.symm.eq_nil
    rw [if_pos hx, if_pos hy]
  · have hy : ys.filterMap id ≠ [] := by
      intro hy
      rw [hy] at hv
      exact hx hv.eq_nil
    rw [if_neg hx, if_neg hy, hv.sum_eq, hv.length_eq]

theorem filterMap_id_replicate_none (n : ℕ) :
    (List.replicate n (none : Option ℚ)).filterMap id = [] := by
  induction n with
  | zero => rfl
  | succ m ih => simp [List.replicate_succ, ih]

/-! ### Claim theorems -/

/-- Claim C1: the roughness-length calculator, given mean wind speeds `u1`,
`u2` and mean friction velocity `ustar`, returns
`(z2 - z1) / (exp(k*u2/ustar) - exp(k*u1/ustar))` with `k = 0.4`, `z1 = 2`,
`z2 = 10`; in particular at `u1 = 5`, `u2 = 7`, `ustar = 0.3` it returns
`(10 - 2) / (exp(0.4*7/0.3) - exp(0.4*5/0.3))`. -/
theorem C1_roughness_length :
    (∀ u1 u2 ustar : ℝ, Rough.z u1 u2 ustar =
      (10 - 2) / (Real.exp (0.4 * u2 / ustar) - Real.exp (0.4 * u1 / ustar))) ∧
    Rough.z 5 7 0.3 =
      (10 - 2) / (Real.exp (0.4 * 7 / 0.3) - Real.exp (0.4 * 5 / 0.3)) := by
  constructor
  · intro u1 u2 ustar
    simp only [Rough.z, Rough.term1, Rough.term2, Rough.term3, Rough.z1, Rough.z2, Rough.k]
  · simp only [Rough.z, Rough.term1, Rough.term2, Rough.term3, Rough.z1, Rough.z2, Rough.k]

/-- Claim C5: the aggregation reducer excludes missing (NaN = `none`) samples
rather than counting them as zero: on `[1, 2, NaN, 4]` it returns `7/3`, and
on an all-missing series it returns the undefined-result signal (`none`, our
NaN), never `0`. -/
theorem C5_nan_excluded :
    nanmean [some 1, some 2, none, some (4 : ℚ)] = some (7 / 3) ∧
    (∀ n : ℕ, nanmean (List.replicate n (none : Option ℚ)) = none) ∧
    (∀ n : ℕ, nanmean (List.replicate n (none : Option ℚ)) ≠ some 0) := by
  refine ⟨?_, fun n => ?_, fun n => ?_⟩
  · simp only [nanmean, List.filterMap_cons, List.filterMap_nil, id_eq]
    rw [if_neg (List.cons_ne_nil _ _)]
    norm_num
  · simp [nanmean, filterMap_id_replicate_none]
  · simp [nanmean, filterMap_id_replicate_none]

/-- Claim C6: for fixed salinity `s > 0` the heat capacity
`heatcap s t = c0 + li*mu*s / t^2` is strictly decreasing in `|t|` (for
`t ≠ 0`), and for fixed `t ≠ 0` it is strictly increasing in `s`. -/
theorem C6_heatcap_monotone :
    (∀ s t₁ t₂ : ℚ, 0 < s → t₁ ≠ 0 → |t₁| < |t₂| → heatcap s t₂ < heatcap s t₁) ∧
    (∀ t s₁ s₂ : ℚ, t ≠ 0 → s₁ < s₂ → heatcap s₁ t < heatcap s₂ t) := by
  constructor
  · intro s t₁ t₂ hs ht h
    have hK : 0 < li * mu * s := by
      have hlm : (0 : ℚ) < li * mu := by norm_num [li, mu]
      exact mul_pos hlm hs
    have h1 : (0 : ℚ) < t₁ ^ 2 := by
      rw [← sq_abs]
      exact pow_pos (abs_pos.mpr ht) 2
    have h2 : t₁ ^ 2 < t₂ ^ 2 := by
      rw [← sq_abs t₁, ← sq_abs t₂]
      exact pow_lt_pow_left₀ h (abs_nonneg t₁) (by norm_num)
    have h2' : (0 : ℚ) < t₂ ^ 2 := lt_trans h1 h2
    have h3 : li * mu * s / t₂ ^ 2 < li * mu * s / t₁ ^ 2 :=
      (div_lt_div_iff_of_pos_left hK h2' h1).mpr h2
    simpa only [heatcap] using add_lt_add_left h3 c0
  · intro t s₁ s₂ ht h
    have h1 : (0 : ℚ) < t ^ 2 := by
      rw [← sq_abs]
      exact pow_pos (abs_pos.mpr ht) 2
    have hlm : (0 : ℚ) < li * mu := by norm_num [li, mu]
    have h2 : li * mu * s₁ < li * mu * s₂ := mul_lt_mul_of_pos_left h hlm
    have h3 : li * mu * s₁ / t ^ 2 < li * mu * s₂ / t ^ 2 :=
      (div_lt_div_iff_of_pos_right h1).mpr h2
    simpa only [heatcap] using add_lt_add_left h3 c0

/-- Witness for C6: both monotonicity statements applied at concrete inputs
(`s = 1`, `t₁ = 1`, `t₂ = -2`; `t = 3`, `s₁ = 1`, `s₂ = 2`). -/
theorem C6_heatcap_monotone_witness :
    heatcap 1 (-2) < heatcap 1 1 ∧ heatcap 1 3 < heatcap 2 3 :=
  ⟨C6_heatcap_monotone.1 1 1 (-2) (by norm_num) (by norm_num) (by norm_num),
   C6_heatcap_monotone.2 3 1 2 (by norm_num) (by norm_num)⟩

/-- Claim C7: restricting a time-indexed series to a date range `[a, b]`
keeps exactly the samples whose timestamp `t` satisfies `a ≤ t ≤ b` (both
boundaries included), and when no timestamp falls in the range the
restriction is empty. -/
theorem C7_restrict_inclusive :
    (∀ (s : Series) (a b : ℤ) (p : ℤ × Option ℚ),
      p ∈ restrict a b s ↔ p ∈ s ∧ a ≤ p.1 ∧ p.1 ≤ b) ∧
    (∀ (s : Series) (a b : ℤ),
      (∀ p ∈ s, ¬(a ≤ p.1 ∧ p.1 ≤ b)) → restrict a b s = []) := by
  constructor
  · intro s a b p
    simp [restrict, List.mem_filter]
  · intro s a b h
    rw [restrict, List.filter_eq_nil_iff]
    intro p hp
    simpa using h p hp

/-- Witness for C7: the empty-restriction statement applied to a concrete
series and a range containing none of its timestamps. -/
theorem C7_restrict_inclusive_witness :
    restrict 5 6 [((1 : ℤ), some (2 : ℚ))] = [] :=
  C7_restrict_inclusive.2 _ 5 6 (by decide)

/-- Claim C9: the aggregation reducer is invariant under permutation of the
columns of a multi-column series (proved in the stronger form where each
row's entries may be permuted independently). -/
theorem C9_column_permutation (f g : Frame)
    (h : List.Forall₂ (fun r s => r.2.Perm s.2) f g) :
    dfStat f = dfStat g := by
  have key : f.map (fun r => nanmean r.2) = g.map (fun r => nanmean r.2) := by
    induction h with
    | nil => rfl
    | cons h1 _ ih =>
      simp only [List.map_cons, ih, List.cons.injEq, and_true]
      exact nanmean_perm h1
  simp only [dfStat, meanAxis1, List.map_map]
  calc nanmean (f.map (Prod.snd ∘ fun r => (r.1, nanmean r.2)))
      = nanmean (f.map (fun r => nanmean r.2)) := rfl
    _ = nanmean (g.map (fun r => nanmean r.2)) := by rw [key]
    _ = nanmean (g.map (Prod.snd ∘ fun r => (r.1, nanmean r.2))) := rfl

/-- Witness for C9: the permutation invariance applied to a concrete
two-column frame and a swap of its columns. -/
theorem C9_column_permutation_witness :
    dfStat [((0 : ℤ), [some (1 : ℚ), some 2])] =
      dfStat [((0 : ℤ), [some (2 : ℚ), some 1])] :=
  C9_column_permutation _ _
    (List.Forall₂.cons (List.Perm.swap (some 2) (some 1) []) List.Forall₂.nil)

/-- Claim C2: the per-mass surface heat capacity is
`c0 + li*mu*S / T^2` with `c0 = 2054`, `li = 3.340e5`, `mu = 0.054`, and the
run computes it exactly three times -- with the all-period, winter-window and
summer-window (rounded) mean temperatures -- yielding three scalar results. -/
theorem C2_heatcap_three_results (sal : Frame) (atm : Series) (s0 ta tw ts : ℚ)
    (hs : dfStat sal = some s0)
    (h1 : seriesStat atm = some ta)
    (h2 : seriesStat (restrict wintStart wintEnd atm) = some tw)
    (h3 : seriesStat (restrict summStart summEnd atm) = some ts) :
    heatCapRun sal atm =
      (some (heatcap (round2 s0) (round2 ta)),
       some (heatcap (round2 s0) (round2 tw)),
       some (heatcap (round2 s0) (round2 ts))) := by
  simp [heatCapRun, tempUsed, hcOpt, hs, h1, h2, h3, Option.map₂]

/-- Witness for C2: the three-result run evaluated on a concrete salinity
frame and temperature series. -/
theorem C2_heatcap_three_results_witness :
    heatCapRun [((0 : ℤ), [some (5 : ℚ)])]
        [((0 : ℤ), some (250 : ℚ)), (100, some 260)] =
      (some (heatcap (round2 5) (round2 255)),
       some (heatcap (round2 5) (round2 250)),
       some (heatcap (round2 5) (round2 260))) :=
  C2_heatcap_three_results _ _ 5 255 250 260
    (by
      simp only [dfStat, meanAxis1, seriesStat, nanmean, List.map_cons, List.map_nil,
        List.filterMap_cons, List.filterMap_nil, id_eq]
      norm_num)
    (by
      simp only [seriesStat, nanmean, List.map_cons, List.map_nil,
        List.filterMap_cons, List.filterMap_nil, id_eq]
      rw [if_neg (List.cons_ne_nil _ _)]
      norm_num)
    (by
      simp only [restrict, wintStart, wintEnd, List.filter_cons, List.filter_nil]
      norm_num [seriesStat, nanmean, List.filterMap_cons])
    (by
      simp only [restrict, summStart, summEnd, List.filter_cons, List.filter_nil]
      norm_num [seriesStat, nanmean, List.filterMap_cons])

/-- Claim C3: for each of the three period results, the volumetric heat
capacity is the per-mass heat capacity multiplied by the mean ice density
`density_df.mean(axis = 1).mean()`. -/
theorem C3_volumetric (sal : Frame) (atm : Series) (den : Frame) (d : ℚ)
    (hd : dfStat den = some d) :
    (∀ x, (heatCapRun sal atm).1 = some x →
      (volRun sal atm den).1 = some (x * d)) ∧
    (∀ x, (heatCapRun sal atm).2.1 = some x →
      (volRun sal atm den).2.1 = some (x * d)) ∧
    (∀ x, (heatCapRun sal atm).2.2 = some x →
      (volRun sal atm den).2.2 = some (x * d)) := by
  refine ⟨fun x hx => ?_, fun x hx => ?_, fun x hx => ?_⟩ <;>
    simp [volRun, hd, hx, Option.map₂]

/-- Witness for C3: the volumetric step evaluated on concrete inputs with
mean density 900. -/
theorem C3_volumetric_witness :
    (volRun [((0 : ℤ), [some (5 : ℚ)])] [((0 : ℤ), some (250 : ℚ))]
      [((0 : ℤ), [some (900 : ℚ)])]).1 =
      some (heatcap (round2 5) (round2 250) * 900) :=
  (C3_volumetric _ _ _ 900 (by
    simp only [dfStat, meanAxis1, seriesStat, nanmean, List.map_cons, List.map_nil,
      List.filterMap_cons, List.filterMap_nil, id_eq]
    norm_num)).1 _ (by
    simp only [heatCapRun, tempUsed, hcOpt, dfStat, meanAxis1, seriesStat, nanmean,
      List.map_cons, List.map_nil, List.filterMap_cons, List.filterMap_nil, id_eq]
    norm_num [Option.map₂])

/-- Claim C4, evaluated at a failing input: the script feeds the mean of the
`atmospheric_surface_temperature` spreadsheet into the heat-capacity formula
(`tempUsed`), not the mean of the ice-core surface-temperature frame in
Kelvin, contradicting the script's own markdown ("I'll use our values of
surface temperature") and the inline comment labelling `t` as "Ice surface
temperature".  With an atmospheric series constantly 250 K and an ice-core
surface temperature constantly -10 degrees C (263.15 K), the temperature
supplied is 250, not 263.15. -/
theorem C4_temperature_source :
    tempUsed [((0 : ℤ), some (250 : ℚ))] = some 250 ∧
    Option.map (fun x => x + 273.15) (dfStat [((0 : ℤ), [some (-10 : ℚ)])]) =
      some 263.15 ∧
    tempUsed [((0 : ℤ), some (250 : ℚ))] ≠
      Option.map (fun x => x + 273.15) (dfStat [((0 : ℤ), [some (-10 : ℚ)])]) ∧
    (heatCapRun [((0 : ℤ), [some (5 : ℚ)])] [((0 : ℤ), some (250 : ℚ))]).1 =
      some (heatcap 5 250) := by
  refine ⟨?_, ?_, ?_, ?_⟩
  · simp only [tempUsed, seriesStat, nanmean, List.map_cons, List.map_nil,
      List.filterMap_cons, List.filterMap_nil, id_eq]
    norm_num [round2, roundHalfEven]
  · simp only [dfStat, meanAxis1, seriesStat, nanmean, List.map_cons, List.map_nil,
      List.filterMap_cons, List.filterMap_nil, id_eq]
    norm_num
  · simp only [tempUsed, dfStat, meanAxis1, seriesStat, nanmean, List.map_cons,
      List.map_nil, List.filterMap_cons, List.filterMap_nil, id_eq]
    norm_num [round2, roundHalfEven]
  · simp only [heatCapRun, tempUsed, hcOpt, dfStat, meanAxis1, seriesStat, nanmean,
      List.map_cons, List.map_nil, List.filterMap_cons, List.filterMap_nil, id_eq]
    norm_num [Option.map₂, round2, roundHalfEven]

/-- Claim C8: every reported mean statistic is the same reduction -- average
across all columns first, then across all time steps, ignoring absent
samples (`specReducer`).  The multi-column statistics
(`df.mean(axis = 1).mean()`, also after a date-range restriction) and the
single-column statistics (`series.mean()`, xarray `.mean()` on a
one-dimensional series) all agree with it. -/
theorem C8_uniform_reducer :
    (∀ f : Frame, dfStat f = specReducer f) ∧
    (∀ s : Series, seriesStat s = specReducer (toFrame s)) ∧
    (∀ (a b : ℤ) (f : Frame),
      dfStat (restrictFrame a b f) = specReducer (restrictFrame a b f)) ∧
    (∀ xs : List (Option ℚ),
      xrMean xs = specReducer (toFrame (xs.map (fun v => ((0 : ℤ), v))))) := by
  have h1 : ∀ f : Frame, dfStat f = specReducer f := by
    intro f
    simp [dfStat, meanAxis1, specReducer, List.map_map]
    rfl
  refine ⟨h1, ?_, fun a b f => h1 _, ?_⟩
  · intro s
    simp [seriesStat, specReducer, toFrame, List.map_map, Function.comp_def,
      nanmean_singleton]
  · intro xs
    simp [xrMean, specReducer, toFrame, List.map_map, Function.comp_def,
      nanmean_singleton]

/-- Claim C10: the mean salinity and each of the three mean temperatures
(all-period, winter-window, summer-window) are rounded to two decimal places
(`np.round(-, 2)`) before the heat-capacity formula is evaluated, so each of
the three results is the formula applied to the rounded means; at mean
salinity `1/3` the rounded result differs from the unrounded one. -/
theorem C10_rounded_means :
    (∀ (sal : Frame) (atm : Series) (s0 ta tw ts : ℚ),
      dfStat sal = some s0 → seriesStat atm = some ta →
      seriesStat (restrict wintStart wintEnd atm) = some tw →
      seriesStat (restrict summStart summEnd atm) = some ts →
      (heatCapRun sal atm).1 = some (heatcap (round2 s0) (round2 ta)) ∧
      (heatCapRun sal atm).2.1 = some (heatcap (round2 s0) (round2 tw)) ∧
      (heatCapRun sal atm).2.2 = some (heatcap (round2 s0) (round2 ts))) ∧
    round2 (1 / 3 : ℚ) = 33 / 100 ∧
    heatcap (round2 ((1 : ℚ) / 3)) (round2 250) ≠ heatcap (1 / 3) 250 := by
  refine ⟨fun sal atm s0 ta tw ts hs h1 h2 h3 => ?_, ?_, ?_⟩
  · refine ⟨?_, ?_, ?_⟩ <;>
      simp [heatCapRun, tempUsed, hcOpt, hs, h1, h2, h3, Option.map₂]
  · norm_num [round2, roundHalfEven]
  · norm_num [heatcap, round2, roundHalfEven, c0, li, mu]

/-- Witness for C10: all three rounded-mean statements applied to a salinity
frame whose mean is `1/3` and a temperature series whose all-period, winter
and summer means are `255`, `250` and `260`. -/
theorem C10_rounded_means_witness :
    (heatCapRun [((0 : ℤ), [some ((1 : ℚ) / 3)])]
        [((0 : ℤ), some (250 : ℚ)), (100, some 260)]).1 =
      some (heatcap (round2 (1 / 3)) (round2 255)) ∧
    (heatCapRun [((0 : ℤ), [some ((1 : ℚ) / 3)])]
        [((0 : ℤ), some (250 : ℚ)), (100, some 260)]).2.1 =
      some (heatcap (round2 (1 / 3)) (round2 250)) ∧
    (heatCapRun [((0 : ℤ), [some ((1 : ℚ) / 3)])]
        [((0 : ℤ), some (250 : ℚ)), (100, some 260)]).2.2 =
      some (heatcap (round2 (1 / 3)) (round2 260)) :=
  C10_rounded_means.1 _ _ (1 / 3) 255 250 260
    (by
      simp only [dfStat, meanAxis1, seriesStat, nanmean, List.map_cons, List.map_nil,
        List.filterMap_cons, List.filterMap_nil, id_eq]
      norm_num)
    (by
      simp only [seriesStat, nanmean, List.map_cons, List.map_nil,
        List.filterMap_cons, List.filterMap_nil, id_eq]
      rw [if_neg (List.cons_ne_nil _ _)]
      norm_num)
    (by
      simp only [restrict, wintStart, wintEnd, List.filter_cons, List.filter_nil]
      norm_num [seriesStat, nanmean, List.filterMap_cons])
    (by
      simp only [restrict, summStart, summEnd, List.filter_cons, List.filter_nil]
      norm_num [seriesStat, nanmean, List.filterMap_cons])

end WrfCalc
